import Mathlib

/-!
Shallow embedding of the TRISOL EcoPV detection/evaluation pipeline
(`CORE APPLICATION/pipeline/inference.py`, class `EcoPVPipeline`).

Modelling conventions:
* Python `float` values that the pipeline manipulates (bounding boxes, areas,
  confidences, the `1e-9` epsilon) are modelled as rationals (`ℚ`); the float
  literal `1e-9` is modelled as the exact rational `1 / 10^9`.
* A pandas `DataFrame` is modelled as a `List` of records (one record per row,
  in row order).
* A COCO JSON file is modelled by `CocoFile`; an optional JSON field such as
  `ann.get("area", default)` is an `Option ℚ` field, where `none` models a
  missing key.  For the `attributes` fields an explicit `null` behaves like a
  missing key throughout (it becomes `None`, then pandas `NaN`, which the
  sums skip, i.e. treat as `0.0`), so `none` covers it as well; a `null`
  stored under the `area` key itself is not modelled.
* A Python function that can raise is modelled with `Except String`; the
  `KeyError` raised by `images_by_id[image_id]` is `.error "KeyError"`.
* A pandas mean over an empty selection is `NaN`; we model a column mean as
  `Option ℚ` where `none` stands for `NaN` (pandas `.mean()` skips `NaN`
  entries, so the `mape` mean is taken over the defined ratios only).
* `rmse_px2 = sqrt(mse)` is irrational in general, so the embedding exposes
  the mean of squared errors `mse_px2 : Option ℚ`; the code's `rmse_px2` is
  `NaN` exactly when `mse_px2 = none` (the square root of a nonnegative
  rational is a real number, and of `NaN` is `NaN`).
-/

namespace EcoPV

/-- One entry of the COCO `images` table: numeric id, file name, pixel size. -/
structure CocoImage where
  id : Nat
  file_name : String
  width : Nat
  height : Nat
  deriving DecidableEq, Repr

/-- One entry of the COCO `categories` table. -/
structure CocoCategory where
  id : Nat
  name : String
  deriving DecidableEq, Repr

/-- One COCO annotation record: owning image id, category id, bounding box
`[x, y, w, h]`, optional explicit `area`, and the optional `attributes`
side-channel fields (`centroid_lat`, `centroid_lon`, `area_m2`). -/
structure CocoAnn where
  image_id : Nat
  category_id : Nat
  bbox_x : ℚ
  bbox_y : ℚ
  bbox_w : ℚ
  bbox_h : ℚ
  area : Option ℚ
  centroid_lat : Option ℚ
  centroid_lon : Option ℚ
  area_m2 : Option ℚ
  deriving DecidableEq, Repr

/-- A parsed COCO annotation file for one split. -/
structure CocoFile where
  images : List CocoImage
  categories : List CocoCategory
  anns : List CocoAnn
  deriving DecidableEq, Repr

/-- `images_by_id = {img["id"]: img for img in coco.get("images", [])}`:
a dict comprehension keeps the last entry for a duplicated id, hence the
lookup searches the reversed list. -/
def imagesById (imgs : List CocoImage) (i : Nat) : Option CocoImage :=
  imgs.reverse.find? (fun img => img.id == i)

/-- `cats_by_id = {cat["id"]: cat["name"] for cat in coco.get("categories", [])}`. -/
def catsById (cats : List CocoCategory) (i : Nat) : Option String :=
  (cats.reverse.find? (fun c => c.id == i)).map (fun c => c.name)

/-- One row of the object-level table built by `parse_coco_split`. -/
structure ObjRow where
  split : String
  image_id : Nat
  file_name : String
  img_width_px : Nat
  img_height_px : Nat
  category_id : Nat
  category_name : String
  x_min_px : ℚ
  y_min_px : ℚ
  width_px : ℚ
  height_px : ℚ
  x_max_px : ℚ
  y_max_px : ℚ
  area_px : ℚ
  centroid_lat : Option ℚ
  centroid_lon : Option ℚ
  area_m2 : Option ℚ
  deriving DecidableEq, Repr

/-- The row `parse_coco_split` appends for one annotation record whose owning
image resolved to `img`.  `area_px = ann.get("area", bbox[2] * bbox[3])` and
`cat_name = cats_by_id.get(category_id, f"class_<id>")`. -/
def objRowOfAnn (split_name : String) (cats : List CocoCategory)
    (img : CocoImage) (ann : CocoAnn) : ObjRow :=
  { split := split_name
    image_id := ann.image_id
    file_name := img.file_name
    img_width_px := img.width
    img_height_px := img.height
    category_id := ann.category_id
    category_name := (catsById cats ann.category_id).getD ("class_" ++ toString ann.category_id)
    x_min_px := ann.bbox_x
    y_min_px := ann.bbox_y
    width_px := ann.bbox_w
    height_px := ann.bbox_h
    x_max_px := ann.bbox_x + ann.bbox_w
    y_max_px := ann.bbox_y + ann.bbox_h
    area_px := ann.area.getD (ann.bbox_w * ann.bbox_h)
    centroid_lat := ann.centroid_lat
    centroid_lon := ann.centroid_lon
    area_m2 := ann.area_m2 }

/-- The `for ann in coco.get("annotations", [])` loop of `parse_coco_split`:
`img_info = images_by_id[image_id]` raises `KeyError` when the annotation's
image id resolves to no image, aborting the whole loop. -/
def parseAnnList (split_name : String) (imgs : List CocoImage)
    (cats : List CocoCategory) : List CocoAnn → Except String (List ObjRow)
  | [] => .ok []
  | ann :: rest =>
    match imagesById imgs ann.image_id with
    | none => .error "KeyError"
    | some img =>
      match parseAnnList split_name imgs cats rest with
      | .ok rows => .ok (objRowOfAnn split_name cats img ann :: rows)
      | .error e => .error e

/-- `parse_coco_split(split_name, dataset_dir)`: a missing annotation file
(`coco? = none`) yields an empty table with a warning; otherwise one object
row per annotation record, or `KeyError` on an unresolvable image id. -/
def parse_coco_split (split_name : String) (coco? : Option CocoFile) :
    Except String (List ObjRow) :=
  match coco? with
  | none => .ok []
  | some coco => parseAnnList split_name coco.images coco.categories coco.anns

/-- One row of the image-level ground-truth table built by
`build_gt_for_split`. -/
structure GtRow where
  split : String
  file_name : String
  image_id : Nat
  img_width_px : Nat
  img_height_px : Nat
  num_boxes_gt : Nat
  area_px_gt : ℚ
  area_m2_gt : ℚ
  has_solar_gt : Bool
  deriving DecidableEq, Repr

/-- The image-level row for one image when the split has annotation records:
the `groupby("image_id")` aggregate left-merged onto the image list, with
`fillna(0)` for images that own no record.  Per record the pipeline takes
`area_px = ann.get("area", 0.0)` and `area_m2 = attrs.get("area_m2", 0.0)`. -/
def gtRowOfImage (split : String) (anns : List CocoAnn) (img : CocoImage) : GtRow :=
  let matching := anns.filter (fun a => a.image_id == img.id)
  { split := split
    file_name := img.file_name
    image_id := img.id
    img_width_px := img.width
    img_height_px := img.height
    num_boxes_gt := matching.length
    area_px_gt := (matching.map (fun a => a.area.getD 0)).sum
    area_m2_gt := (matching.map (fun a => a.area_m2.getD 0)).sum
    has_solar_gt := decide (0 < matching.length) }

/-- `build_gt_for_split(split, dataset_dir)`.  A missing annotation file
yields an empty table.  With no annotation records every image gets the
constant columns `num_boxes_gt = 0`, areas `0.0`, `has_solar_gt = False`.
Otherwise the per-image aggregate is merged onto the image list; if the
image list is empty the frame built from it has no `image_id` column and
`pd.merge(..., on="image_id")` raises `KeyError`. -/
def build_gt_for_split (split : String) (coco? : Option CocoFile) :
    Except String (List GtRow) :=
  match coco? with
  | none => .ok []
  | some coco =>
    if coco.anns.isEmpty then
      .ok (coco.images.map (fun img =>
        { split := split
          file_name := img.file_name
          image_id := img.id
          img_width_px := img.width
          img_height_px := img.height
          num_boxes_gt := 0
          area_px_gt := 0
          area_m2_gt := 0
          has_solar_gt := false }))
    else if coco.images.isEmpty then
      .error "KeyError"
    else
      .ok (coco.images.map (gtRowOfImage split coco.anns))

/-- One row of the image-level prediction table produced by
`run_inference_on_split` and read back by `evaluate_predictions`. -/
structure PredRow where
  split : String
  file_name : String
  image_path : String
  num_preds : Nat
  has_solar_pred : Bool
  max_conf_pred : ℚ
  area_px_pred : ℚ
  deriving DecidableEq, Repr

/-- The join key of `pd.merge(df_gt, df_pred, on=["split", "file_name"], how="inner")`. -/
def keyMatch (g : GtRow) (p : PredRow) : Bool :=
  g.split == p.split && g.file_name == p.file_name

/-- Inner merge on `(split, file_name)`: for each ground-truth row, in order,
one merged row per prediction row carrying the same key (pandas keeps the
order of the left frame's keys for an inner join). -/
def mergeInner (gt : List GtRow) (pred : List PredRow) : List (GtRow × PredRow) :=
  gt.flatMap (fun g => (pred.filter (keyMatch g)).map (fun p => (g, p)))

/-- Pandas column `.mean()`: `NaN` (here `none`) on an empty selection. -/
def seriesMean (xs : List ℚ) : Option ℚ :=
  if xs.isEmpty then none else some (xs.sum / (xs.length : ℚ))

/-- The additive denominator guard `eps = 1e-9`, modelled exactly. -/
def eps : ℚ := 1 / 1000000000

/-- The area-evaluation mask
`(df_merged["area_px_gt"] > 0) | (df_merged["area_px_pred"] > 0)`. -/
def areaMask (r : GtRow × PredRow) : Bool :=
  decide (0 < r.1.area_px_gt) || decide (0 < r.2.area_px_pred)

/-- `rel_err = abs_err / (area_gt.replace(0, np.nan))`;
`mape = (rel_err * 100).mean()`.  Rows of the area mask whose ground-truth
area is exactly `0` get `NaN` ratios, which pandas `.mean()` skips, so the
mean ranges over the mask rows with nonzero ground-truth area only. -/
def computeMape (merged : List (GtRow × PredRow)) : Option ℚ :=
  seriesMean (((merged.filter areaMask).filter
      (fun r => r.1.area_px_gt != 0)).map
    (fun r => |r.2.area_px_pred - r.1.area_px_gt| / r.1.area_px_gt * 100))

/-- The metrics dictionary returned by `evaluate_predictions` (with
`mse_px2` in place of `rmse_px2 = sqrt(mse_px2)`, see the file header). -/
structure Metrics where
  tp : Nat
  fp : Nat
  fn : Nat
  tn : Nat
  accuracy : ℚ
  prec : ℚ
  rcl : ℚ
  f1_score : ℚ
  mae_px2 : Option ℚ
  mse_px2 : Option ℚ
  mape_percent : Option ℚ
  num_images_area_eval : Nat
  total_images : Nat
  deriving DecidableEq, Repr

/-- The metrics block of `evaluate_predictions` (lines 399-442 of the
source), computed from the merged table;
`has_solar_gt`/`has_solar_pred` are already `bool` (the `.astype(bool)`
casts are identities in this model). -/
def computeMetrics (df_merged : List (GtRow × PredRow)) : Metrics :=
  let tp := (df_merged.filter (fun r => r.1.has_solar_gt && r.2.has_solar_pred)).length
    let tn := (df_merged.filter (fun r => !r.1.has_solar_gt && !r.2.has_solar_pred)).length
    let fp := (df_merged.filter (fun r => !r.1.has_solar_gt && r.2.has_solar_pred)).length
    let fn := (df_merged.filter (fun r => r.1.has_solar_gt && !r.2.has_solar_pred)).length
    let prec := (tp : ℚ) / ((tp : ℚ) + (fp : ℚ) + eps)
    let rcl := (tp : ℚ) / ((tp : ℚ) + (fn : ℚ) + eps)
    let f1 := 2 * prec * rcl / (prec + rcl + eps)
    let accuracy := ((tp : ℚ) + (tn : ℚ)) / ((tp : ℚ) + (tn : ℚ) + (fp : ℚ) + (fn : ℚ) + eps)
    let maskRows := df_merged.filter areaMask
    let abs_err := maskRows.map (fun r => |r.2.area_px_pred - r.1.area_px_gt|)
    let sq_err := maskRows.map (fun r => (r.2.area_px_pred - r.1.area_px_gt) ^ 2)
    { tp := tp
      fp := fp
      fn := fn
      tn := tn
      accuracy := accuracy
      prec := prec
      rcl := rcl
      f1_score := f1
      mae_px2 := seriesMean abs_err
      mse_px2 := seriesMean sq_err
      mape_percent := computeMape df_merged
      num_images_area_eval := maskRows.length
      total_images := df_merged.length }

/-- `evaluate_predictions()`: raises `ValueError` when the ground-truth CSV
or the prediction CSV is absent (modelled by a `none` input), before any
merge is formed or artifact written; otherwise returns the metrics together
with the merged table it persists. -/
def evaluate_predictions (gt? : Option (List GtRow)) (pred? : Option (List PredRow)) :
    Except String (Metrics × List (GtRow × PredRow)) :=
  match gt?, pred? with
  | some df_gt, some df_pred =>
    let df_merged := mergeInner df_gt df_pred
    .ok (computeMetrics df_merged, df_merged)
  | _, _ => .error "Ground truth or prediction files not found. Run extraction and inference first."

/-! ### Helper lemmas about the parser -/

theorem imagesById_isSome_iff (imgs : List CocoImage) (i : Nat) :
    (imagesById imgs i).isSome = true ↔ ∃ img ∈ imgs, img.id = i := by
  simp [imagesById, List.find?_isSome]

theorem imagesById_eq_none (imgs : List CocoImage) (i : Nat)
    (h : ∀ img ∈ imgs, img.id ≠ i) : imagesById imgs i = none := by
  rw [imagesById, List.find?_eq_none]
  intro img hmem
  simpa using h img (List.mem_reverse.mp hmem)

theorem parseAnnList_ok_of_resolvable (s : String) (imgs : List CocoImage)
    (cats : List CocoCategory) (l : List CocoAnn)
    (h : ∀ ann ∈ l, (imagesById imgs ann.image_id).isSome = true) :
    ∃ rows, parseAnnList s imgs cats l = .ok rows := by
  induction l with
  | nil => exact ⟨[], rfl⟩
  | cons ann rest ih =>
    obtain ⟨img, himg⟩ := Option.isSome_iff_exists.mp (h ann (List.mem_cons_self ann rest))
    obtain ⟨rows, hrows⟩ := ih (fun a ha => h a (List.mem_cons_of_mem _ ha))
    exact ⟨objRowOfAnn s cats img ann :: rows, by simp [parseAnnList, himg, hrows]⟩

theorem parseAnnList_error_of_unresolvable (s : String) (imgs : List CocoImage)
    (cats : List CocoCategory) (l : List CocoAnn) (ann : CocoAnn)
    (hmem : ann ∈ l) (hnone : imagesById imgs ann.image_id = none) :
    parseAnnList s imgs cats l = .error "KeyError" := by
  induction l with
  | nil => cases hmem
  | cons a rest ih =>
    rcases List.mem_cons.mp hmem with rfl | hmem'
    · simp [parseAnnList, hnone]
    · cases hcur : imagesById imgs a.image_id with
      | none => simp [parseAnnList, hcur]
      | some img => simp [parseAnnList, hcur, ih hmem']

theorem parseAnnList_ok_spec (s : String) (imgs : List CocoImage)
    (cats : List CocoCategory) (l : List CocoAnn) (rows : List ObjRow)
    (h : parseAnnList s imgs cats l = .ok rows) :
    rows.length = l.length ∧
    ∀ i (hi : i < l.length) (hi' : i < rows.length),
      ∃ img, imagesById imgs (l.get ⟨i, hi⟩).image_id = some img ∧
        rows.get ⟨i, hi'⟩ = objRowOfAnn s cats img (l.get ⟨i, hi⟩) := by
  induction l generalizing rows with
  | nil =>
    simp only [parseAnnList, Except.ok.injEq] at h
    subst h
    exact ⟨rfl, fun i hi _ => absurd hi (Nat.not_lt_zero i)⟩
  | cons ann rest ih =>
    cases hcur : imagesById imgs ann.image_id with
    | none => simp [parseAnnList, hcur] at h
    | some img =>
      cases hrec : parseAnnList s imgs cats rest with
      | error e => simp [parseAnnList, hcur, hrec] at h
      | ok rs =>
        simp only [parseAnnList, hcur, hrec, Except.ok.injEq] at h
        subst h
        obtain ⟨hlen, hget⟩ := ih rs hrec
        refine ⟨by simp [hlen], ?_⟩
        intro i hi hi'
        cases i with
        | zero => exact ⟨img, hcur, rfl⟩
        | succ j =>
          exact hget j (Nat.lt_of_succ_lt_succ hi) (Nat.lt_of_succ_lt_succ hi')

/-! ### C9: totality of `parse_coco_split` -/

/-- C9: `parse_coco_split` succeeds when every annotation record's image id
resolves in the split's image table, and raises an unhandled `KeyError`
(rather than skipping the record or emitting a row) when some record's
image id matches no image entry. -/
theorem C9_parse_requires_resolvable_image_ids (split : String) (coco : CocoFile) :
    ((∀ ann ∈ coco.anns, ∃ img ∈ coco.images, img.id = ann.image_id) →
      ∃ rows, parse_coco_split split (some coco) = .ok rows) ∧
    ((∃ ann ∈ coco.anns, ∀ img ∈ coco.images, img.id ≠ ann.image_id) →
      parse_coco_split split (some coco) = .error "KeyError") := by
  constructor
  · intro h
    exact parseAnnList_ok_of_resolvable split coco.images coco.categories coco.anns
      (fun ann ha => (imagesById_isSome_iff _ _).mpr (h ann ha))
  · rintro ⟨ann, hmem, hno⟩
    exact parseAnnList_error_of_unresolvable split coco.images coco.categories coco.anns
      ann hmem (imagesById_eq_none _ _ hno)

/-- An annotation record whose `image_id` (5) matches no image entry. -/
def annC9 : CocoAnn :=
  { image_id := 5, category_id := 1, bbox_x := 0, bbox_y := 0, bbox_w := 2, bbox_h := 3,
    area := none, centroid_lat := none, centroid_lon := none, area_m2 := none }

/-- A split whose image table lacks the entry for `annC9`. -/
def cocoC9 : CocoFile := { images := [], categories := [], anns := [annC9] }

/-- Witness for C9 at a concrete orphaned annotation record. -/
theorem C9_witness : parse_coco_split "train" (some cocoC9) = .error "KeyError" :=
  (C9_parse_requires_resolvable_image_ids "train" cocoC9).2
    ⟨annC9, by simp [cocoC9], by simp [cocoC9]⟩

/-! ### C2: negative images are never dropped -/

/-- C2: every enumerated image yields exactly one image-level row, and an
image owning zero annotation records gets `num_boxes_gt = 0`, summed areas
`0.0` and `has_solar_gt = false` — negative images are not dropped. -/
theorem C2_negative_images_never_dropped (split : String) (coco : CocoFile)
    (i : Nat) (h : i < coco.images.length)
    (hz : coco.anns.filter (fun a => a.image_id == coco.images[i].id) = []) :
    ∃ rows, build_gt_for_split split (some coco) = .ok rows ∧
      rows.length = coco.images.length ∧
      rows[i]? = some
        { split := split
          file_name := coco.images[i].file_name
          image_id := coco.images[i].id
          img_width_px := coco.images[i].width
          img_height_px := coco.images[i].height
          num_boxes_gt := 0
          area_px_gt := 0
          area_m2_gt := 0
          has_solar_gt := false } := by
  have hne : coco.images.isEmpty = false := by
    cases himg : coco.images with
    | nil => rw [himg] at h; exact absurd h (by simp)
    | cons a t => rfl
  by_cases he : coco.anns.isEmpty
  · refine ⟨coco.images.map (fun img =>
      { split := split
        file_name := img.file_name
        image_id := img.id
        img_width_px := img.width
        img_height_px := img.height
        num_boxes_gt := 0
        area_px_gt := 0
        area_m2_gt := 0
        has_solar_gt := false }), ?_, by simp, ?_⟩
    · simp [build_gt_for_split, he]
    · rw [List.getElem?_map, List.getElem?_eq_getElem h]
      rfl
  · have he' : coco.anns.isEmpty = false := by simpa using he
    refine ⟨coco.images.map (gtRowOfImage split coco.anns), ?_, by simp, ?_⟩
    · simp [build_gt_for_split, he', hne]
    · rw [List.getElem?_map, List.getElem?_eq_getElem h]
      simp [gtRowOfImage, hz]

/-- A split with one positive image (id 1) and one negative image (id 2). -/
def cocoC2 : CocoFile :=
  { images := [ { id := 1, file_name := "pos.png", width := 5, height := 5 },
                { id := 2, file_name := "neg.png", width := 6, height := 7 } ]
    categories := [ { id := 1, name := "solar" } ]
    anns := [ { image_id := 1, category_id := 1, bbox_x := 0, bbox_y := 0, bbox_w := 2,
                bbox_h := 2, area := some 4, centroid_lat := none, centroid_lon := none,
                area_m2 := none } ] }

/-- Witness for C2 on `cocoC2`: the annotation-free image keeps its zeroed row. -/
theorem C2_witness :
    ((build_gt_for_split "train" (some cocoC2)).toOption.getD [])[1]? = some
      { split := "train", file_name := "neg.png", image_id := 2, img_width_px := 6,
        img_height_px := 7, num_boxes_gt := 0, area_px_gt := 0, area_m2_gt := 0,
        has_solar_gt := false } := by
  obtain ⟨rows, hrows, hlen, hget⟩ :=
    C2_negative_images_never_dropped "train" cocoC2 1 (by norm_num [cocoC2]) (by simp [cocoC2])
  rw [hrows]
  simpa [cocoC2] using hget

/-! ### C1: the two area fallbacks disagree -/

/-- Image entry for the C1 counterexample split. -/
def imgC1 : CocoImage := { id := 1, file_name := "a.png", width := 10, height := 10 }

/-- An annotation record that omits the explicit `area` field, with a
5 × 4 bounding box. -/
def annC1 : CocoAnn :=
  { image_id := 1, category_id := 7, bbox_x := 0, bbox_y := 0, bbox_w := 5, bbox_h := 4,
    area := none, centroid_lat := none, centroid_lon := none, area_m2 := none }

/-- A one-image split whose only annotation record omits `area`. -/
def cocoC1 : CocoFile := { images := [imgC1], categories := [], anns := [annC1] }

/-- C1 counterexample: for a record omitting `area` with bbox 5 × 4, the
object-level table derives `area_px = 5 * 4 = 20`, but the image-level
ground-truth sum books it as `0.0` (`ann.get("area", 0.0)`), so the two
areas used by the pipeline disagree and the claim's image-level half fails. -/
theorem C1_counterexample :
    ((parse_coco_split "train" (some cocoC1)).toOption.map fun rows =>
      rows.map fun r => r.area_px) = some [5 * 4] ∧
    ((build_gt_for_split "train" (some cocoC1)).toOption.map fun rows =>
      rows.map fun r => r.area_px_gt) = some [0] ∧
    (0 : ℚ) ≠ 5 * 4 := by
  refine ⟨?_, ?_, by norm_num⟩
  · simp [parse_coco_split, parseAnnList, imagesById, objRowOfAnn, cocoC1, imgC1, annC1,
      Except.toOption]
  · simp [build_gt_for_split, gtRowOfImage, cocoC1, imgC1, annC1, Except.toOption]

/-- C1 (amended): for every annotation source, a record omitting the
explicit pixel area is derived as bbox width times height in the
object-level table, while the per-image summed area of the image-level
ground-truth table books it as `0.0` instead: every row's summed area is
exactly the sum of `ann.get("area", 0.0)` over the records owned by its
image — an explicit-area record contributes its stored area and an
omitted-area record contributes `0.0`, even in sources mixing both kinds —
and appending an omitted-area record to a source never changes any summed
area. -/
theorem C1_area_fallback_amended :
    (∀ (split : String) (coco : CocoFile) (rows : List ObjRow),
      parse_coco_split split (some coco) = .ok rows →
      ∀ i (hi : i < coco.anns.length) (hi' : i < rows.length),
        (coco.anns.get ⟨i, hi⟩).area = none →
        (rows.get ⟨i, hi'⟩).area_px =
          (coco.anns.get ⟨i, hi⟩).bbox_w * (coco.anns.get ⟨i, hi⟩).bbox_h) ∧
    (∀ (split : String) (coco : CocoFile) (rows : List GtRow),
      build_gt_for_split split (some coco) = .ok rows →
      ∀ i (hi : i < coco.images.length) (hi' : i < rows.length),
        (rows.get ⟨i, hi'⟩).area_px_gt =
          ((coco.anns.filter (fun a => a.image_id == coco.images[i].id)).map
            (fun a => a.area.getD 0)).sum) ∧
    (∀ (split : String) (anns : List CocoAnn) (img : CocoImage) (a : CocoAnn),
      a.area = none →
      (gtRowOfImage split (anns ++ [a]) img).area_px_gt =
        (gtRowOfImage split anns img).area_px_gt) := by
  refine ⟨?_, ?_, ?_⟩
  · intro split coco rows h i hi hi' hnone
    obtain ⟨img, _, hrow⟩ :=
      (parseAnnList_ok_spec split coco.images coco.categories coco.anns rows h).2 i hi hi'
    rw [hrow]
    rw [List.get_eq_getElem] at hnone
    simp [objRowOfAnn, hnone]
  · intro split coco rows h i hi hi'
    by_cases he : coco.anns.isEmpty
    · have hanns : coco.anns = [] := List.isEmpty_iff.mp he
      rw [build_gt_for_split] at h
      rw [if_pos he] at h
      injection h with h'
      subst h'
      rw [hanns]
      simp [List.get_eq_getElem, List.getElem_map]
    · have he' : coco.anns.isEmpty = false := by simpa using he
      by_cases himgs : coco.images.isEmpty
      · rw [build_gt_for_split, if_neg (by simp [he']), if_pos himgs] at h
        cases h
      · have himgs' : coco.images.isEmpty = false := by simpa using himgs
        rw [build_gt_for_split, if_neg (by simp [he']), if_neg (by simp [himgs'])] at h
        injection h with h'
        subst h'
        simp [List.get_eq_getElem, List.getElem_map, gtRowOfImage]
  · intro split anns img a ha
    simp only [gtRowOfImage, List.filter_append]
    by_cases hm : a.image_id == img.id
    · simp [List.filter_cons, hm, ha]
    · simp [List.filter_cons, hm]

/-- The object-level table of `cocoC1`. -/
def rowsC1 : List ObjRow := [objRowOfAnn "train" [] imgC1 annC1]

/-- An annotation record for the same image carrying an explicit area 7
(whose bbox would give 3 * 2 = 6). -/
def annC1b : CocoAnn :=
  { image_id := 1, category_id := 7, bbox_x := 0, bbox_y := 0, bbox_w := 3, bbox_h := 2,
    area := some 7, centroid_lat := none, centroid_lon := none, area_m2 := none }

/-- A mixed split: an explicit-area record and an omitted-area record own
the same image. -/
def cocoC1m : CocoFile := { images := [imgC1], categories := [], anns := [annC1b, annC1] }

/-- Witness for C1 (amended): the object row of `cocoC1` derives 5 * 4; on
the mixed source `cocoC1m` the image-level sum is 7 (the explicit area
alone, the omitted-area record adding 0.0 rather than its 20 px² bbox
area); appending the omitted-area record leaves the sum unchanged. -/
theorem C1_witness :
    (rowsC1.get ⟨0, by norm_num [rowsC1]⟩).area_px = annC1.bbox_w * annC1.bbox_h ∧
    ((build_gt_for_split "train" (some cocoC1m)).toOption.getD []).map
      (fun r => r.area_px_gt) = [7] ∧
    (gtRowOfImage "train" ([annC1b] ++ [annC1]) imgC1).area_px_gt =
      (gtRowOfImage "train" [annC1b] imgC1).area_px_gt := by
  have hparse : parse_coco_split "train" (some cocoC1) = .ok rowsC1 := by
    simp [parse_coco_split, parseAnnList, imagesById, cocoC1, imgC1, annC1, rowsC1]
  have hb : build_gt_for_split "train" (some cocoC1m) =
      .ok [gtRowOfImage "train" cocoC1m.anns imgC1] := by
    simp [build_gt_for_split, cocoC1m]
  refine ⟨?_, ?_, ?_⟩
  · exact C1_area_fallback_amended.1 "train" cocoC1 rowsC1 hparse 0
      (by norm_num [cocoC1]) (by norm_num [rowsC1]) (by simp [cocoC1, annC1])
  · have hrow := C1_area_fallback_amended.2.1 "train" cocoC1m
      [gtRowOfImage "train" cocoC1m.anns imgC1] hb 0
      (by norm_num [cocoC1m]) (by norm_num)
    rw [hb]
    simp only [List.get] at hrow
    simp only [Except.toOption, Option.getD, List.map_cons, List.map_nil, hrow]
    norm_num [cocoC1m, annC1, annC1b, imgC1]
  · exact C1_area_fallback_amended.2.2 "train" [annC1b] imgC1 annC1 rfl

/-! ### Helper lemmas about the evaluator -/

/-- The `(split, file_name)` key of a ground-truth row. -/
def gtKey (g : GtRow) : String × String := (g.split, g.file_name)

/-- The `(split, file_name)` key of a prediction row. -/
def predKey (p : PredRow) : String × String := (p.split, p.file_name)

theorem keyMatch_iff (g : GtRow) (p : PredRow) :
    keyMatch g p = true ↔ gtKey g = predKey p := by
  simp [keyMatch, gtKey, predKey, Prod.ext_iff]

theorem mem_mergeInner {gt : List GtRow} {pred : List PredRow} {r : GtRow × PredRow} :
    r ∈ mergeInner gt pred ↔ r.1 ∈ gt ∧ r.2 ∈ pred ∧ keyMatch r.1 r.2 = true := by
  constructor
  · intro h
    obtain ⟨g, hg, hr⟩ := List.mem_flatMap.mp h
    obtain ⟨p, hp, rfl⟩ := List.mem_map.mp hr
    obtain ⟨hp', hk⟩ := List.mem_filter.mp hp
    exact ⟨hg, hp', hk⟩
  · rintro ⟨h1, h2, h3⟩
    exact List.mem_flatMap.mpr ⟨r.1, h1,
      List.mem_map.mpr ⟨r.2, List.mem_filter.mpr ⟨h2, h3⟩, rfl⟩⟩

theorem evaluate_ok_iff {gt : List GtRow} {pred : List PredRow} {m : Metrics}
    {merged : List (GtRow × PredRow)}
    (h : evaluate_predictions (some gt) (some pred) = .ok (m, merged)) :
    m = computeMetrics (mergeInner gt pred) ∧ merged = mergeInner gt pred := by
  simp only [evaluate_predictions, Except.ok.injEq, Prod.mk.injEq] at h
  exact ⟨h.1.symm, h.2.symm⟩

theorem filter_partition_four (l : List (GtRow × PredRow)) :
    (l.filter (fun r => r.1.has_solar_gt && r.2.has_solar_pred)).length +
      (l.filter (fun r => !r.1.has_solar_gt && !r.2.has_solar_pred)).length +
      (l.filter (fun r => !r.1.has_solar_gt && r.2.has_solar_pred)).length +
      (l.filter (fun r => r.1.has_solar_gt && !r.2.has_solar_pred)).length = l.length := by
  induction l with
  | nil => rfl
  | cons r t ih =>
    cases hg : r.1.has_solar_gt <;> cases hp : r.2.has_solar_pred <;>
      simp [List.filter_cons, hg, hp] <;> omega

theorem eps_pos : 0 < eps := by norm_num [eps]

theorem ratio_eps_bounds (x y : ℚ) (hx : 0 ≤ x) (hy : 0 ≤ y) :
    0 ≤ x / (x + y + eps) ∧ x / (x + y + eps) ≤ 1 := by
  have hd : 0 < x + y + eps := by have := eps_pos; linarith
  constructor
  · positivity
  · rw [div_le_one hd]
    have he := eps_pos
    linarith

theorem f1_eps_bounds (p r : ℚ) (hp0 : 0 ≤ p) (hp1 : p ≤ 1) (hr0 : 0 ≤ r) (hr1 : r ≤ 1) :
    0 ≤ 2 * p * r / (p + r + eps) ∧ 2 * p * r / (p + r + eps) ≤ 1 := by
  have hd : 0 < p + r + eps := by have := eps_pos; linarith
  constructor
  · positivity
  · rw [div_le_one hd]
    nlinarith [mul_nonneg hp0 (sub_nonneg.mpr hr1), mul_nonneg hr0 (sub_nonneg.mpr hp1),
      eps_pos]

/-! ### C3: the three-image end-to-end scenario -/

/-- Ground-truth table of the spec's three-image scenario: image A has one
object of 100 px², image B none, image C one object of 200 px². -/
def gtC3 : List GtRow :=
  [ { split := "test", file_name := "A.png", image_id := 1, img_width_px := 100,
      img_height_px := 100, num_boxes_gt := 1, area_px_gt := 100, area_m2_gt := 0,
      has_solar_gt := true },
    { split := "test", file_name := "B.png", image_id := 2, img_width_px := 100,
      img_height_px := 100, num_boxes_gt := 0, area_px_gt := 0, area_m2_gt := 0,
      has_solar_gt := false },
    { split := "test", file_name := "C.png", image_id := 3, img_width_px := 100,
      img_height_px := 100, num_boxes_gt := 1, area_px_gt := 200, area_m2_gt := 0,
      has_solar_gt := true } ]

/-- Prediction table of the scenario: one 90 px² prediction on image A, no
predictions on images B and C. -/
def predC3 : List PredRow :=
  [ { split := "test", file_name := "A.png", image_path := "test/A.png",
      num_preds := 1, has_solar_pred := true, max_conf_pred := 1, area_px_pred := 90 },
    { split := "test", file_name := "B.png", image_path := "test/B.png",
      num_preds := 0, has_solar_pred := false, max_conf_pred := 0, area_px_pred := 0 },
    { split := "test", file_name := "C.png", image_path := "test/C.png",
      num_preds := 0, has_solar_pred := false, max_conf_pred := 0, area_px_pred := 0 } ]

/-- C3 counterexample: on the scenario tables the evaluator's accuracy is
exactly `2 / (3 + 1e-9) = 2000000000/3000000001`, which differs from the
claimed `2/3` because the epsilon also inflates the denominator of a
nonzero count. -/
theorem C3_counterexample :
    ((evaluate_predictions (some gtC3) (some predC3)).toOption.map fun r =>
      r.1.accuracy) = some (2000000000 / 3000000001) ∧
    (2000000000 / 3000000001 : ℚ) ≠ 2 / 3 := by
  constructor
  · have hmerge : mergeInner gtC3 predC3 =
        [ (gtC3.get ⟨0, by norm_num [gtC3]⟩, predC3.get ⟨0, by norm_num [predC3]⟩),
          (gtC3.get ⟨1, by norm_num [gtC3]⟩, predC3.get ⟨1, by norm_num [predC3]⟩),
          (gtC3.get ⟨2, by norm_num [gtC3]⟩, predC3.get ⟨2, by norm_num [predC3]⟩) ] := by
      simp [mergeInner, keyMatch, gtC3, predC3]
    simp only [evaluate_predictions, computeMetrics, hmerge]
    norm_num [gtC3, predC3, eps, Except.toOption]
  · norm_num

/-- C3 (amended): on the three-image scenario the evaluator returns `tp = 1`,
`tn = 1`, `fn = 1`, `fp = 0`, accuracy `2 / (3 + eps)` (approximately but
not exactly `2/3`), and a mean absolute area error of exactly `105.0`
computed over images A and C only (`num_images_area_eval = 2`). -/
theorem C3_scenario :
    ((evaluate_predictions (some gtC3) (some predC3)).toOption.map fun r =>
      (r.1.tp, r.1.tn, r.1.fn, r.1.fp, r.1.accuracy, r.1.mae_px2, r.1.num_images_area_eval)) =
      some (1, 1, 1, 0, 2 / (3 + eps), some 105, 2) := by
  have hmerge : mergeInner gtC3 predC3 =
      [ (gtC3.get ⟨0, by norm_num [gtC3]⟩, predC3.get ⟨0, by norm_num [predC3]⟩),
        (gtC3.get ⟨1, by norm_num [gtC3]⟩, predC3.get ⟨1, by norm_num [predC3]⟩),
        (gtC3.get ⟨2, by norm_num [gtC3]⟩, predC3.get ⟨2, by norm_num [predC3]⟩) ] := by
    simp [mergeInner, keyMatch, gtC3, predC3]
  simp only [evaluate_predictions, computeMetrics, hmerge]
  norm_num [gtC3, predC3, areaMask, computeMape, seriesMean, eps, Except.toOption]

/-! ### C8: missing prerequisite artifacts are fatal -/

/-- C8: when the ground-truth artifact or the prediction artifact is absent,
`evaluate_predictions` raises `ValueError` with the diagnostic naming the
missing prerequisite, producing neither metrics nor a merged table. -/
theorem C8_missing_artifact_is_fatal (gt? : Option (List GtRow))
    (pred? : Option (List PredRow)) (h : gt? = none ∨ pred? = none) :
    evaluate_predictions gt? pred? =
      .error "Ground truth or prediction files not found. Run extraction and inference first." := by
  rcases h with rfl | rfl
  · rfl
  · cases gt? <;> rfl

/-- Witness for C8: evaluation without a ground-truth artifact. -/
theorem C8_witness :
    evaluate_predictions none (some []) =
      .error "Ground truth or prediction files not found. Run extraction and inference first." :=
  C8_missing_artifact_is_fatal none (some []) (Or.inl rfl)

/-! ### C7: the confusion matrix counts partition the merged table -/

/-- C7: the four confusion-matrix counts sum to the number of merged rows,
which is also the reported `total_images`. -/
theorem C7_confusion_counts_sum (gt : List GtRow) (pred : List PredRow)
    (m : Metrics) (merged : List (GtRow × PredRow))
    (h : evaluate_predictions (some gt) (some pred) = .ok (m, merged)) :
    m.tp + m.tn + m.fp + m.fn = merged.length ∧ m.total_images = merged.length := by
  obtain ⟨rfl, rfl⟩ := evaluate_ok_iff h
  exact ⟨filter_partition_four _, rfl⟩

/-- Witness for C7 on the concrete three-image tables. -/
theorem C7_witness :
    (computeMetrics (mergeInner gtC3 predC3)).tp +
      (computeMetrics (mergeInner gtC3 predC3)).tn +
      (computeMetrics (mergeInner gtC3 predC3)).fp +
      (computeMetrics (mergeInner gtC3 predC3)).fn = (mergeInner gtC3 predC3).length :=
  (C7_confusion_counts_sum gtC3 predC3 _ _ rfl).1

/-! ### C6: epsilon-guarded classification metrics stay in [0, 1] -/

/-- C6: precision, recall, F1 and accuracy each lie in `[0, 1]` for every
merged table (including tables with an absent class or no rows at all), and
every denominator, carrying the additive epsilon, is strictly positive, so
no division by zero occurs. -/
theorem C6_classification_metrics_bounded (gt : List GtRow) (pred : List PredRow)
    (m : Metrics) (merged : List (GtRow × PredRow))
    (h : evaluate_predictions (some gt) (some pred) = .ok (m, merged)) :
    (0 ≤ m.prec ∧ m.prec ≤ 1) ∧ (0 ≤ m.rcl ∧ m.rcl ≤ 1) ∧
    (0 ≤ m.f1_score ∧ m.f1_score ≤ 1) ∧ (0 ≤ m.accuracy ∧ m.accuracy ≤ 1) ∧
    (0 < (m.tp : ℚ) + (m.fp : ℚ) + eps ∧ 0 < (m.tp : ℚ) + (m.fn : ℚ) + eps ∧
      0 < m.prec + m.rcl + eps ∧
      0 < (m.tp : ℚ) + (m.tn : ℚ) + (m.fp : ℚ) + (m.fn : ℚ) + eps) := by
  obtain ⟨rfl, rfl⟩ := evaluate_ok_iff h
  have hprec := ratio_eps_bounds
    (((mergeInner gt pred).filter (fun r => r.1.has_solar_gt && r.2.has_solar_pred)).length : ℚ)
    (((mergeInner gt pred).filter (fun r => !r.1.has_solar_gt && r.2.has_solar_pred)).length : ℚ)
    (by positivity) (by positivity)
  have hrcl := ratio_eps_bounds
    (((mergeInner gt pred).filter (fun r => r.1.has_solar_gt && r.2.has_solar_pred)).length : ℚ)
    (((mergeInner gt pred).filter (fun r => r.1.has_solar_gt && !r.2.has_solar_pred)).length : ℚ)
    (by positivity) (by positivity)
  have hf1 := f1_eps_bounds _ _ hprec.1 hprec.2 hrcl.1 hrcl.2
  have hacc := ratio_eps_bounds
    ((((mergeInner gt pred).filter (fun r => r.1.has_solar_gt && r.2.has_solar_pred)).length : ℚ) +
      (((mergeInner gt pred).filter (fun r => !r.1.has_solar_gt && !r.2.has_solar_pred)).length : ℚ))
    ((((mergeInner gt pred).filter (fun r => !r.1.has_solar_gt && r.2.has_solar_pred)).length : ℚ) +
      (((mergeInner gt pred).filter (fun r => r.1.has_solar_gt && !r.2.has_solar_pred)).length : ℚ))
    (by positivity) (by positivity)
  rw [show (((mergeInner gt pred).filter (fun r => r.1.has_solar_gt && r.2.has_solar_pred)).length : ℚ) +
      (((mergeInner gt pred).filter (fun r => !r.1.has_solar_gt && !r.2.has_solar_pred)).length : ℚ) +
      ((((mergeInner gt pred).filter (fun r => !r.1.has_solar_gt && r.2.has_solar_pred)).length : ℚ) +
        (((mergeInner gt pred).filter (fun r => r.1.has_solar_gt && !r.2.has_solar_pred)).length : ℚ)) + eps =
      (((mergeInner gt pred).filter (fun r => r.1.has_solar_gt && r.2.has_solar_pred)).length : ℚ) +
      (((mergeInner gt pred).filter (fun r => !r.1.has_solar_gt && !r.2.has_solar_pred)).length : ℚ) +
      (((mergeInner gt pred).filter (fun r => !r.1.has_solar_gt && r.2.has_solar_pred)).length : ℚ) +
      (((mergeInner gt pred).filter (fun r => r.1.has_solar_gt && !r.2.has_solar_pred)).length : ℚ) + eps
    from by ring] at hacc
  have he := eps_pos
  refine ⟨hprec, hrcl, hf1, hacc, ?_, ?_, ?_, ?_⟩
  · have h1 : (0 : ℚ) ≤ ((computeMetrics (mergeInner gt pred)).tp : ℚ) := Nat.cast_nonneg _
    have h2 : (0 : ℚ) ≤ ((computeMetrics (mergeInner gt pred)).fp : ℚ) := Nat.cast_nonneg _
    linarith
  · have h1 : (0 : ℚ) ≤ ((computeMetrics (mergeInner gt pred)).tp : ℚ) := Nat.cast_nonneg _
    have h2 : (0 : ℚ) ≤ ((computeMetrics (mergeInner gt pred)).fn : ℚ) := Nat.cast_nonneg _
    linarith
  · have h1 : 0 ≤ (computeMetrics (mergeInner gt pred)).prec := hprec.1
    have h2 : 0 ≤ (computeMetrics (mergeInner gt pred)).rcl := hrcl.1
    linarith
  · have h1 : (0 : ℚ) ≤ ((computeMetrics (mergeInner gt pred)).tp : ℚ) := Nat.cast_nonneg _
    have h2 : (0 : ℚ) ≤ ((computeMetrics (mergeInner gt pred)).tn : ℚ) := Nat.cast_nonneg _
    have h3 : (0 : ℚ) ≤ ((computeMetrics (mergeInner gt pred)).fp : ℚ) := Nat.cast_nonneg _
    have h4 : (0 : ℚ) ≤ ((computeMetrics (mergeInner gt pred)).fn : ℚ) := Nat.cast_nonneg _
    linarith

/-- Witness for C6 on the empty tables (no class present at all). -/
theorem C6_witness :
    (0 ≤ (computeMetrics (mergeInner ([] : List GtRow) ([] : List PredRow))).prec ∧
      (computeMetrics (mergeInner ([] : List GtRow) ([] : List PredRow))).prec ≤ 1) ∧
    (0 ≤ (computeMetrics (mergeInner ([] : List GtRow) ([] : List PredRow))).accuracy ∧
      (computeMetrics (mergeInner ([] : List GtRow) ([] : List PredRow))).accuracy ≤ 1) := by
  have h := C6_classification_metrics_bounded [] [] _ _ rfl
  exact ⟨h.1, h.2.2.2.1⟩

/-! ### C5: merging is a strict inner join -/

/-- C5: every merged row pairs a ground-truth row with a prediction row of
the same `(split, file_name)` key, a key missing from either table yields no
merged row, and the metrics are a function of the merged table alone. -/
theorem C5_strict_inner_join (gt : List GtRow) (pred : List PredRow)
    (m : Metrics) (merged : List (GtRow × PredRow))
    (h : evaluate_predictions (some gt) (some pred) = .ok (m, merged)) :
    m = computeMetrics merged ∧
    (∀ r ∈ merged, r.1 ∈ gt ∧ r.2 ∈ pred ∧ gtKey r.1 = predKey r.2) ∧
    (∀ s f : String, (¬ ∃ g ∈ gt, gtKey g = (s, f)) →
      ∀ r ∈ merged, gtKey r.1 ≠ (s, f)) ∧
    (∀ s f : String, (¬ ∃ p ∈ pred, predKey p = (s, f)) →
      ∀ r ∈ merged, gtKey r.1 ≠ (s, f)) := by
  obtain ⟨rfl, rfl⟩ := evaluate_ok_iff h
  refine ⟨rfl, ?_, ?_, ?_⟩
  · intro r hr
    obtain ⟨h1, h2, h3⟩ := mem_mergeInner.mp hr
    exact ⟨h1, h2, (keyMatch_iff _ _).mp h3⟩
  · intro s f hno r hr hkey
    obtain ⟨h1, _, _⟩ := mem_mergeInner.mp hr
    exact hno ⟨r.1, h1, hkey⟩
  · intro s f hno r hr hkey
    obtain ⟨_, h2, h3⟩ := mem_mergeInner.mp hr
    exact hno ⟨r.2, h2, (((keyMatch_iff _ _).mp h3).symm.trans hkey)⟩

/-- Witness for C5: on the scenario tables, a key absent from the prediction
table reaches no merged row. -/
theorem C5_witness :
    gtKey ((mergeInner gtC3 predC3).get ⟨0, by decide⟩).1 ≠ ("test", "Z.png") := by
  have h := (C5_strict_inner_join gtC3 predC3 _ _ rfl).2.2.2 "test" "Z.png" (by decide)
  exact h _ (List.get_mem _ _ _)

/-! ### C4: MAPE skips rows with zero ground-truth area -/

/-- C4: the returned MAPE is the mean of `|pred - gt| / gt * 100` over the
area-filtered merged rows with nonzero ground-truth area only; appending a
row whose ground-truth area is `0` leaves the MAPE unchanged (it contributes
neither a `0%` nor an infinite term). -/
theorem C4_mape_skips_zero_gt_rows (gt : List GtRow) (pred : List PredRow)
    (m : Metrics) (merged : List (GtRow × PredRow))
    (h : evaluate_predictions (some gt) (some pred) = .ok (m, merged)) :
    m.mape_percent = computeMape merged ∧
    ∀ (rows : List (GtRow × PredRow)) (r : GtRow × PredRow), r.1.area_px_gt = 0 →
      computeMape (rows ++ [r]) = computeMape rows := by
  obtain ⟨rfl, rfl⟩ := evaluate_ok_iff h
  refine ⟨rfl, ?_⟩
  intro rows r hr
  unfold computeMape
  rw [List.filter_append, List.filter_append]
  have hnil : ([r].filter areaMask).filter (fun x => x.1.area_px_gt != 0) = [] := by
    cases hm : areaMask r <;> simp [List.filter_cons, hm, hr]
  rw [hnil, List.append_nil]

/-- Witness for C4: the scenario table's MAPE, and the zero-area row of the
scenario contributing nothing. -/
theorem C4_witness :
    (computeMetrics (mergeInner gtC3 predC3)).mape_percent =
      computeMape (mergeInner gtC3 predC3) ∧
    computeMape ([] ++ [(gtC3.get ⟨1, by norm_num [gtC3]⟩,
      predC3.get ⟨1, by norm_num [predC3]⟩)]) = computeMape [] := by
  have h := C4_mape_skips_zero_gt_rows gtC3 predC3 _ _ rfl
  exact ⟨h.1, h.2 [] _ rfl⟩

/-! ### C10: degenerate area selections give NaN means, not errors -/

/-- C10: evaluation always succeeds on present artifacts; when no merged row
passes the area mask the MAE and the mean squared error (hence the RMSE) are
`NaN` (`none`), and when no mask row has nonzero ground-truth area the MAPE
is `NaN` (`none`). -/
theorem C10_degenerate_area_selection (gt : List GtRow) (pred : List PredRow) :
    (∃ res, evaluate_predictions (some gt) (some pred) = .ok res) ∧
    (∀ (m : Metrics) (merged : List (GtRow × PredRow)),
      evaluate_predictions (some gt) (some pred) = .ok (m, merged) →
      (merged.filter areaMask = [] → m.mae_px2 = none ∧ m.mse_px2 = none) ∧
      ((merged.filter areaMask).filter (fun r => r.1.area_px_gt != 0) = [] →
        m.mape_percent = none)) := by
  refine ⟨⟨_, rfl⟩, ?_⟩
  intro m merged h
  obtain ⟨rfl, rfl⟩ := evaluate_ok_iff h
  refine ⟨fun hmask => ⟨?_, ?_⟩, fun hmape => ?_⟩
  · show seriesMean (((mergeInner gt pred).filter areaMask).map
      (fun r => |r.2.area_px_pred - r.1.area_px_gt|)) = none
    rw [hmask]
    rfl
  · show seriesMean (((mergeInner gt pred).filter areaMask).map
      (fun r => (r.2.area_px_pred - r.1.area_px_gt) ^ 2)) = none
    rw [hmask]
    rfl
  · show computeMape (mergeInner gt pred) = none
    unfold computeMape
    rw [hmape]
    rfl

/-- Witness for C10 on empty tables: empty area selection, `NaN` means. -/
theorem C10_witness :
    (computeMetrics (mergeInner ([] : List GtRow) ([] : List PredRow))).mae_px2 = none ∧
    (computeMetrics (mergeInner ([] : List GtRow) ([] : List PredRow))).mse_px2 = none ∧
    (computeMetrics (mergeInner ([] : List GtRow) ([] : List PredRow))).mape_percent = none := by
  have h := (C10_degenerate_area_selection [] []).2
    (computeMetrics (mergeInner [] [])) (mergeInner [] []) rfl
  exact ⟨(h.1 rfl).1, (h.1 rfl).2, h.2 rfl⟩

end EcoPV
